import Mathlib

/-!
Shallow embedding of `rigol-converter/rigolreader.py`, a decoder for the
binary `.rof` waveform files produced by Rigol DP800-series power supplies.

A file is modelled as a `List Nat` of byte values.  The Python file object
with its read cursor is modelled by the pair (buffer, position) threaded
through `fread`, which mirrors `BufferedReader.read(n)` (the reader that
`open(filename, "rb")` returns): it raises `ValueError` for `n < -1`,
returns all remaining bytes for `n = -1`, and otherwise returns at most
`n` bytes, advancing the cursor by the number of bytes actually read.

`struct.unpack` on an exact-width format raises `struct.error` when handed
a short byte string; numpy's `ndarray(shape, dtype, buffer)` constructor
raises `ValueError` on a negative shape dimension and `TypeError` when the
buffer is smaller than the array needs.  These Python exceptions are the
constructors of `RofError` below, named after the spec's error taxonomy.

Numeric note: the source converts the decoded int32 grid with
`astype(np.float32)` and multiplies by `0.0001`, and builds the time column
in the same dtype.  The embedding computes these values in `ℚ`; for every
value appearing in the concrete theorems below the float32 computation and
the exact computation agree (the products round to exactly the same
representable values), so the rational model is faithful there.
-/

namespace RigolReader

/-- Error taxonomy of the decoder, mapping the Python exceptions actually
raised by `read_rof` to the spec's names: `unknownModel` is the `KeyError`
from `model_dict[...]` (carrying the raw bytes that were looked up),
`chKeyError` the (unreachable) `KeyError` from `ch_num[...]`,
`truncatedHeader` the `struct.error` from `struct.unpack` on a short read,
`truncatedData` numpy's buffer-too-small `TypeError`,
`negativeDimensions` numpy's negative-shape `ValueError`, and
`negativeReadLength` the `ValueError` ("read length must be non-negative
or -1") that `BufferedReader.read` raises for a length below -1. -/
inductive RofError where
  | unknownModel (raw : List Nat)
  | chKeyError (model : String)
  | truncatedHeader
  | truncatedData
  | negativeDimensions
  | negativeReadLength
  deriving DecidableEq

/-- Header record: the `head` dict filled by `read_rof`, one field per key
in the order the source assigns them. -/
structure RofHeader where
  filetype : String
  model : String
  data_info_len : Int
  data_len : Int
  head_crc : List Nat
  data_crc : List Nat
  period : Int
  points : Int
  oldest_data_subscript : List Nat
  deriving DecidableEq

/-- `fid.read(n)` on the `BufferedReader` that `open(filename, "rb")`
returns, with the cursor at `pos`: a length below -1 raises `ValueError`
("read length must be non-negative or -1"); length -1 returns all
remaining bytes; a length `n ≥ 0` returns up to `n` bytes from the cursor
(fewer at end of file).  The new cursor position is clamped to the buffer
length. -/
def fread (buf : List Nat) (pos : Nat) (n : Int) :
    Except RofError (List Nat × Nat) :=
  if n < -1 then Except.error RofError.negativeReadLength
  else if n = -1 then Except.ok (buf.drop pos, buf.length)
  else Except.ok ((buf.drop pos).take n.toNat, min (pos + n.toNat) buf.length)

/-- `bytes.decode('latin-1')`: each byte value becomes the character with
that code point; total on every byte value, it can never fail. -/
def latin1 (bs : List Nat) : String :=
  String.mk (bs.map Char.ofNat)

/-- Little-endian value of a byte list (first byte least significant), as
used by `struct.unpack` on x86 and by the `'<i4'` numpy dtype. -/
def leNat : List Nat → Nat
  | [] => 0
  | b :: rest => b + 256 * leNat rest

/-- Two's-complement reading of a `w`-byte little-endian unsigned value as
a signed integer. -/
def toSigned (w : Nat) (n : Nat) : Int :=
  if n < 2 ^ (8 * w - 1) then (n : Int) else (n : Int) - 2 ^ (8 * w)

/-- `struct.unpack('1h', bs)[0]`: requires exactly 2 bytes, else raises
`struct.error` (the spec's `TruncatedHeaderError`); decodes a signed
little-endian 16-bit integer. -/
def unpack1h (bs : List Nat) : Except RofError Int :=
  if bs.length = 2 then Except.ok (toSigned 2 (leNat bs))
  else Except.error RofError.truncatedHeader

/-- `struct.unpack('1i', bs)[0]`: requires exactly 4 bytes, else raises
`struct.error`; decodes a signed little-endian 32-bit integer. -/
def unpack1i (bs : List Nat) : Except RofError Int :=
  if bs.length = 4 then Except.ok (toSigned 4 (leNat bs))
  else Except.error RofError.truncatedHeader

/-- `model_dict = {b"\n": "DP821A"}`: lookup of the raw bytes read for the
model code; `none` models the `KeyError` for any other key, including the
empty read at end of file. -/
def model_dict (bs : List Nat) : Option String :=
  if bs = [10] then some "DP821A" else none

/-- `ch_num = {"DP821A": 2}`: channels per model label. -/
def ch_num (model : String) : Option Nat :=
  if model = "DP821A" then some 2 else none

/-- `DATA_BYTES = 4`: each data value in the file is a 4-byte integer. -/
def DATA_BYTES : Nat := 4

/-- `VOLTS_AMPERES_COEFF = 0.0001`, the fixed unit-conversion constant. -/
def VOLTS_AMPERES_COEFF : ℚ := 1 / 10000

/-- `CSV_SEPARATOR = ";"`. -/
def CSV_SEPARATOR : String := ";"

/-- Groups a byte list into consecutive 4-byte little-endian signed 32-bit
integers (the `'<i4'` dtype of `DATA_FORMAT`); a trailing fragment of fewer
than 4 bytes is ignored. -/
def bytesToInts : List Nat → List Int
  | b0 :: b1 :: b2 :: b3 :: rest =>
      toSigned 4 (leNat [b0, b1, b2, b3]) :: bytesToInts rest
  | _ => []

/-- Row-major grouping of a flat value list into `rows` rows of `cols`
entries each, as numpy lays out `shape=(rows, cols)` over a buffer. -/
def toRows : Nat → Nat → List Int → List (List Int)
  | 0, _, _ => []
  | r + 1, cols, xs => xs.take cols :: toRows r cols (xs.drop cols)

/-- `np.ndarray(shape=(points, chn*2), dtype='<i4', buffer=raw)`: numpy
first rejects a negative shape dimension (`ValueError`), then rejects a
buffer smaller than the array requires (`TypeError`, the spec's
`TruncatedDataError`), and only then reinterprets the bytes as the
row-major int32 grid. -/
def ndarrayDecode (points : Int) (chn : Nat) (raw : List Nat) :
    Except RofError (List (List Int)) :=
  if points < 0 then Except.error RofError.negativeDimensions
  else if raw.length < points.toNat * (chn * 2) * DATA_BYTES then
    Except.error RofError.truncatedData
  else Except.ok (toRows points.toNat (chn * 2) (bytesToInts raw))

/-- `data.astype(np.float32) * VOLTS_AMPERES_COEFF`: elementwise conversion
of the integer grid to physical units, modelled exactly in `ℚ`. -/
def unitConvert (g : List (List Int)) : List (List ℚ) :=
  g.map (fun row => row.map (fun v : Int => (v : ℚ) * VOLTS_AMPERES_COEFF))

/-- `np.array([val * head["period"] for val in range(head["points"])])`:
the synthesized time column, value at row `i` equal to `i * period`. -/
def timeAxis (points : Nat) (period : Int) : List ℚ :=
  (List.range points).map (fun i : Nat => (i : ℚ) * (period : ℚ))

/-- Header-reading prefix of `read_rof` (everything up to and including the
`oldest_data_subscript` read), returning the header record together with
the cursor position after the last header read. -/
def read_header (buf : List Nat) : Except RofError (RofHeader × Nat) :=
  match fread buf 0 3 with
  | Except.error e => Except.error e
  | Except.ok r1 =>
    let filetype := latin1 r1.1
    match fread buf r1.2 1 with
    | Except.error e => Except.error e
    | Except.ok r2 =>
      match fread buf r2.2 1 with
      | Except.error e => Except.error e
      | Except.ok r3 =>
        match model_dict r3.1 with
        | none => Except.error (RofError.unknownModel r3.1)
        | some model =>
          match fread buf r3.2 1 with
          | Except.error e => Except.error e
          | Except.ok r4 =>
            match fread buf r4.2 2 with
            | Except.error e => Except.error e
            | Except.ok r5 =>
              match unpack1h r5.1 with
              | Except.error e => Except.error e
              | Except.ok data_info_len =>
                match fread buf r5.2 4 with
                | Except.error e => Except.error e
                | Except.ok r6 =>
                  match unpack1i r6.1 with
                  | Except.error e => Except.error e
                  | Except.ok data_len =>
                    match fread buf r6.2 2 with
                    | Except.error e => Except.error e
                    | Except.ok r7 =>
                      match fread buf r7.2 2 with
                      | Except.error e => Except.error e
                      | Except.ok r8 =>
                        match fread buf r8.2 4 with
                        | Except.error e => Except.error e
                        | Except.ok r9 =>
                          match unpack1i r9.1 with
                          | Except.error e => Except.error e
                          | Except.ok period =>
                            match fread buf r9.2 4 with
                            | Except.error e => Except.error e
                            | Except.ok r10 =>
                              match unpack1i r10.1 with
                              | Except.error e => Except.error e
                              | Except.ok points =>
                                match fread buf r10.2 4 with
                                | Except.error e => Except.error e
                                | Except.ok r11 =>
                                  Except.ok
                                    ({ filetype := filetype
                                       model := model
                                       data_info_len := data_info_len
                                       data_len := data_len
                                       head_crc := r7.1
                                       data_crc := r8.1
                                       period := period
                                       points := points
                                       oldest_data_subscript := r11.1 }, r11.2)

/-- `read_rof`: decodes the header, resolves the channel count, reads and
reinterprets the sample block, converts units, synthesizes the time column
and prepends it (`np.insert(data, 0, x_data, axis=1)`), returning the data
table and the header. -/
def read_rof (buf : List Nat) : Except RofError (List (List ℚ) × RofHeader) :=
  match read_header buf with
  | Except.error e => Except.error e
  | Except.ok (head, pos) =>
    match ch_num head.model with
    | none => Except.error (RofError.chKeyError head.model)
    | some chn =>
      let data_values : Int := head.points * (chn : Int) * 2
      let data_bytes : Int := data_values * (DATA_BYTES : Int)
      match fread buf pos data_bytes with
      | Except.error e => Except.error e
      | Except.ok rd =>
        match ndarrayDecode head.points chn rd.1 with
        | Except.error e => Except.error e
        | Except.ok grid =>
          let dataq := unitConvert grid
          let x_data := timeAxis head.points.toNat head.period
          Except.ok (List.zipWith (fun t row => t :: row) x_data dataq, head)

/-- Python `str` applied to a numpy `float32` scalar whose value is an
integer (the only case arising in the concrete scenarios proved below):
such a scalar prints as its integer part followed by `.0`.  Non-integral
values, which numpy prints with its shortest-roundtrip algorithm, do not
occur in the theorems of this development and are rendered as
numerator/denominator. -/
def pyFloatStr (q : ℚ) : String :=
  if q.den = 1 then toString q.num ++ ".0"
  else toString q.num ++ "/" ++ toString q.den

/-- Output loop of `main`: one text line per data row, the row's values
stringified and joined with `CSV_SEPARATOR`. -/
def outputLines (data : List (List ℚ)) : List String :=
  data.map (fun line => String.intercalate CSV_SEPARATOR (line.map pyFloatStr))

/-- End-to-end behaviour of `main` on a readable file: decode the buffer
with `read_rof` and emit the table line by line (errors propagate and
produce no output). -/
def mainOutput (buf : List Nat) : Except RofError (List String) :=
  match read_rof buf with
  | Except.error e => Except.error e
  | Except.ok (data, _) => Except.ok (outputLines data)

end RigolReader

deriving instance DecidableEq for Except

namespace RigolReader

/-- Concrete scenario buffer from the spec: file type "ROF", model byte 10,
period 100, point count 2, followed by the 32 sample bytes encoding the
little-endian int32 values 10000‥80000. -/
def rofBuf : List Nat :=
  [82, 79, 70, 0, 10, 0, 0, 0, 0, 0, 0, 0, 0, 0, 0, 0,
   100, 0, 0, 0, 2, 0, 0, 0, 0, 0, 0, 0] ++
  [16, 39, 0, 0, 32, 78, 0, 0, 48, 117, 0, 0, 64, 156, 0, 0,
   80, 195, 0, 0, 96, 234, 0, 0, 112, 17, 1, 0, 128, 56, 1, 0]

/-- Header record decoded from `rofBuf`. -/
def hdrRof : RofHeader :=
  { filetype := "ROF", model := "DP821A", data_info_len := 0, data_len := 0,
    head_crc := [0, 0], data_crc := [0, 0], period := 100, points := 2,
    oldest_data_subscript := [0, 0, 0, 0] }

/-- Well-formed 28-byte buffer whose point-count field is 0 (no sample
bytes follow). -/
def rofBuf0 : List Nat :=
  [82, 79, 70, 0, 10, 0, 0, 0, 0, 0, 0, 0, 0, 0, 0, 0,
   100, 0, 0, 0, 0, 0, 0, 0, 0, 0, 0, 0]

/-- 28-byte buffer whose point-count field decodes to the negative value
-1 (bytes 255 255 255 255). -/
def rofBufNeg : List Nat :=
  [82, 79, 70, 0, 10, 0, 0, 0, 0, 0, 0, 0, 0, 0, 0, 0,
   100, 0, 0, 0, 255, 255, 255, 255, 0, 0, 0, 0]

/-- Indexing with a default commutes with `List.map` at in-range indices. -/
lemma getBangMap {α β : Type} [Inhabited α] [Inhabited β] (f : α → β)
    (l : List α) (i : Nat) (h : i < l.length) : (l.map f)[i]! = f l[i]! := by
  induction l generalizing i with
  | nil => simp at h
  | cons a t ih =>
    cases i with
    | zero => simp
    | succ n => simpa using ih n (by simpa using h)

/-- On a buffer holding at least the full 28-byte fixed header, with the
model byte equal to 10, the header parser succeeds and each header field
is the decoding of the documented byte range of the buffer, with the
cursor left at offset 28. -/
lemma read_header_of_length (buf : List Nat) (h : 28 ≤ buf.length)
    (hm : (buf.drop 4).take 1 = [10]) :
    read_header buf =
      Except.ok ({ filetype := latin1 (buf.take 3),
                   model := "DP821A",
                   data_info_len := toSigned 2 (leNat ((buf.drop 6).take 2)),
                   data_len := toSigned 4 (leNat ((buf.drop 8).take 4)),
                   head_crc := (buf.drop 12).take 2,
                   data_crc := (buf.drop 14).take 2,
                   period := toSigned 4 (leNat ((buf.drop 16).take 4)),
                   points := toSigned 4 (leNat ((buf.drop 20).take 4)),
                   oldest_data_subscript := (buf.drop 24).take 4 }, 28) := by
  have m3 : min 3 buf.length = 3 := by omega
  have m4 : min 4 buf.length = 4 := by omega
  have m5 : min 5 buf.length = 5 := by omega
  have m6 : min 6 buf.length = 6 := by omega
  have m8 : min 8 buf.length = 8 := by omega
  have m12 : min 12 buf.length = 12 := by omega
  have m14 : min 14 buf.length = 14 := by omega
  have m16 : min 16 buf.length = 16 := by omega
  have m20 : min 20 buf.length = 20 := by omega
  have m24 : min 24 buf.length = 24 := by omega
  have m28 : min 28 buf.length = 28 := by omega
  have l2 : min 2 (buf.length - 6) = 2 := by omega
  have l4a : min 4 (buf.length - 8) = 4 := by omega
  have l4b : min 4 (buf.length - 16) = 4 := by omega
  have l4c : min 4 (buf.length - 20) = 4 := by omega
  simp [read_header, fread, hm, model_dict, unpack1h, unpack1i,
        m3, m4, m5, m6, m8, m12, m14, m16, m20, m24, m28, l2, l4a, l4b, l4c]

/-- When the single byte read at offset 4 is not the one key of
`model_dict`, the header parser fails with the unknown-model error
carrying exactly the bytes that were read. -/
lemma read_header_unknown (buf : List Nat) (h5 : 5 ≤ buf.length)
    (hm : (buf.drop 4).take 1 ≠ [10]) :
    read_header buf = Except.error (RofError.unknownModel ((buf.drop 4).take 1)) := by
  have m3 : min 3 buf.length = 3 := by omega
  have m4 : min 4 buf.length = 4 := by omega
  have hd : model_dict ((buf.drop 4).take 1) = none := by simp [model_dict, hm]
  simp [read_header, fread, m3, m4, hd]

/-- A buffer with a valid model byte that ends inside one of the four
`struct.unpack`-decoded header fields (total length in `[5, 24)`) makes
the header parser fail with the truncated-header error. -/
lemma read_header_truncated (buf : List Nat) (h5 : 5 ≤ buf.length)
    (h24 : buf.length < 24) (hm : (buf.drop 4).take 1 = [10]) :
    read_header buf = Except.error RofError.truncatedHeader := by
  have m3 : min 3 buf.length = 3 := by omega
  have m4 : min 4 buf.length = 4 := by omega
  have m5 : min 5 buf.length = 5 := by omega
  simp [read_header, fread, hm, model_dict, unpack1h, unpack1i, m3, m4, m5]
  split_ifs <;> first | rfl | (exfalso; omega)

end RigolReader

namespace RigolReader

/-- C1 (counterexample): on the concrete valid buffer `rofBuf` the header
parser leaves the read cursor at offset 28, not 24 as the claim states —
the fixed header comprises 3+1+1+1+2+4+2+2+4+4+4 = 28 bytes. -/
theorem c1_counterexample :
    read_header rofBuf = Except.ok (hdrRof, 28) ∧ (28 : Nat) ≠ 24 :=
  ⟨by with_unfolding_all decide, by decide⟩

/-- C1 (amended): for every valid header parsed from a buffer holding at
least the full fixed header, the header parser consumes exactly 28 bytes
(the read cursor ends at offset 28), regardless of field values. -/
theorem c1_header_consumes_28 (buf : List Nat) (hd : RofHeader) (p : Nat)
    (h : 28 ≤ buf.length) (hok : read_header buf = Except.ok (hd, p)) :
    p = 28 := by
  by_cases hm : (buf.drop 4).take 1 = [10]
  · rw [read_header_of_length buf h hm] at hok
    simp only [Except.ok.injEq, Prod.mk.injEq] at hok
    exact hok.2.symm
  · rw [read_header_unknown buf (by omega) hm] at hok
    simp at hok

/-- C1 witness: the amended theorem applied to the concrete buffer. -/
theorem c1_header_consumes_28_witness :
    28 ≤ rofBuf.length ∧ read_header rofBuf = Except.ok (hdrRof, 28) ∧ (28 : Nat) = 28 :=
  ⟨by decide, by with_unfolding_all decide,
   c1_header_consumes_28 rofBuf hdrRof 28 (by decide) (by with_unfolding_all decide)⟩

/-- C2: on any buffer holding the full 28-byte fixed header with the known
model byte at offset 4, the header parser reads exactly the documented
sequence of fields, in order and width, from offset 0: bytes 0‥2 as the
latin-1 file-type string (total on every byte value), byte 3 skipped,
byte 4 as the model code, byte 5 skipped, bytes 6‥7 as the signed LE
data-info length, bytes 8‥11 as the signed LE data length, bytes 12‥13
and 14‥15 as the raw checksums, bytes 16‥19 as the signed LE period,
bytes 20‥23 as the signed LE point count, and bytes 24‥27 as the raw
oldest-data subscript — each stored in the returned header record. -/
theorem c2_field_layout (buf : List Nat) (h : 28 ≤ buf.length)
    (hm : (buf.drop 4).take 1 = [10]) :
    read_header buf =
      Except.ok ({ filetype := latin1 (buf.take 3),
                   model := "DP821A",
                   data_info_len := toSigned 2 (leNat ((buf.drop 6).take 2)),
                   data_len := toSigned 4 (leNat ((buf.drop 8).take 4)),
                   head_crc := (buf.drop 12).take 2,
                   data_crc := (buf.drop 14).take 2,
                   period := toSigned 4 (leNat ((buf.drop 16).take 4)),
                   points := toSigned 4 (leNat ((buf.drop 20).take 4)),
                   oldest_data_subscript := (buf.drop 24).take 4 }, 28) :=
  read_header_of_length buf h hm

/-- C2 witness: the field-layout theorem applied to the concrete buffer. -/
theorem c2_field_layout_witness :
    28 ≤ rofBuf.length ∧ (rofBuf.drop 4).take 1 = [10] ∧
    read_header rofBuf =
      Except.ok ({ filetype := latin1 (rofBuf.take 3),
                   model := "DP821A",
                   data_info_len := toSigned 2 (leNat ((rofBuf.drop 6).take 2)),
                   data_len := toSigned 4 (leNat ((rofBuf.drop 8).take 4)),
                   head_crc := (rofBuf.drop 12).take 2,
                   data_crc := (rofBuf.drop 14).take 2,
                   period := toSigned 4 (leNat ((rofBuf.drop 16).take 4)),
                   points := toSigned 4 (leNat ((rofBuf.drop 20).take 4)),
                   oldest_data_subscript := (rofBuf.drop 24).take 4 }, 28) :=
  ⟨by decide, by decide, c2_field_layout rofBuf (by decide) (by decide)⟩

/-- C3 (counterexample): the 4-byte buffer `[82, 79, 70, 0]` ends before
the 1-byte model-code field is complete, yet decoding fails with the
unknown-model error (the empty read is looked up in `model_dict` and
raises `KeyError`), not with the truncated-header error the claim
requires. -/
theorem c3_counterexample :
    read_rof [82, 79, 70, 0] = Except.error (RofError.unknownModel []) ∧
    RofError.unknownModel [] ≠ RofError.truncatedHeader :=
  ⟨by with_unfolding_all decide, by decide⟩

/-- C3 (amended): a buffer with a known model byte that ends before one of
the four struct-decoded integer header fields is complete (total length
in `[5, 24)`) makes the decode fail with the truncated-header error and
return no table; truncation before the model byte surfaces as the
unknown-model error instead, and truncation inside the raw or string
fields is not detected at that step. -/
theorem c3_truncated_header (buf : List Nat) (h5 : 5 ≤ buf.length)
    (h24 : buf.length < 24) (hm : (buf.drop 4).take 1 = [10]) :
    read_rof buf = Except.error RofError.truncatedHeader := by
  have hh := read_header_truncated buf h5 h24 hm
  simp [read_rof, hh]

/-- C3 witness: the amended theorem applied to a 10-byte truncation of the
concrete buffer. -/
theorem c3_truncated_header_witness :
    5 ≤ (rofBuf.take 10).length ∧ (rofBuf.take 10).length < 24 ∧
    ((rofBuf.take 10).drop 4).take 1 = [10] ∧
    read_rof (rofBuf.take 10) = Except.error RofError.truncatedHeader :=
  ⟨by decide, by decide, by decide,
   c3_truncated_header (rofBuf.take 10) (by decide) (by decide) (by decide)⟩

/-- C4: the model resolver maps code 10 (byte `b"\n"`) to label "DP821A"
with channel count 2 and defines no other code; any buffer whose model
byte is a value other than 10 makes the decode fail with the
unknown-model error carrying the raw byte. -/
theorem c4_model_resolver :
    (model_dict [10] = some "DP821A" ∧ ch_num "DP821A" = some 2) ∧
    (∀ bs : List Nat, bs ≠ [10] → model_dict bs = none) ∧
    (∀ (buf : List Nat) (b : Nat), 5 ≤ buf.length →
      (buf.drop 4).take 1 = [b] → b ≠ 10 →
      read_rof buf = Except.error (RofError.unknownModel [b])) := by
  refine ⟨⟨by decide, by decide⟩, ?_, ?_⟩
  · intro bs hbs
    simp [model_dict, hbs]
  · intro buf b h5 hb hne
    have hmm : (buf.drop 4).take 1 ≠ [10] := by simp [hb, hne]
    have hh := read_header_unknown buf h5 hmm
    rw [hb] at hh
    simp [read_rof, hh]

/-- C4 witness: byte 7 is not a key of the mapping and decoding a buffer
with model byte 7 fails with the unknown-model error carrying it. -/
theorem c4_model_resolver_witness :
    ([7] : List Nat) ≠ [10] ∧ model_dict [7] = none ∧
    5 ≤ ([82, 79, 70, 0, 7] : List Nat).length ∧ (7 : Nat) ≠ 10 ∧
    read_rof [82, 79, 70, 0, 7] = Except.error (RofError.unknownModel [7]) :=
  ⟨by decide, c4_model_resolver.2.1 [7] (by decide), by decide, by decide,
   c4_model_resolver.2.2 [82, 79, 70, 0, 7] 7 (by decide) (by decide) (by decide)⟩

/-- C5: for every point count P ≥ 0 and channel count C, the sample-array
decoder needs exactly `P * (C * 2) * 4` bytes: with any fewer it fails
with the truncated-data error (the length check precedes the
reinterpretation, so no grid is built), and with at least that many it
succeeds and reinterprets the bytes as the row-major int32 grid. -/
theorem c5_sample_length_check (P : Int) (C : Nat) (raw : List Nat) (hP : 0 ≤ P) :
    (raw.length < P.toNat * (C * 2) * DATA_BYTES →
      ndarrayDecode P C raw = Except.error RofError.truncatedData) ∧
    (P.toNat * (C * 2) * DATA_BYTES ≤ raw.length →
      ndarrayDecode P C raw = Except.ok (toRows P.toNat (C * 2) (bytesToInts raw))) := by
  unfold ndarrayDecode
  rw [if_neg (by omega)]
  constructor
  · intro hlt
    rw [if_pos hlt]
  · intro hge
    rw [if_neg (by omega)]

/-- C5 witness: with P = 1 and C = 2, a 15-byte block (one byte fewer than
the required 16) triggers the truncated-data error. -/
theorem c5_sample_length_check_witness :
    0 ≤ (1 : Int) ∧
    (List.replicate 15 0).length < (1 : Int).toNat * (2 * 2) * DATA_BYTES ∧
    ndarrayDecode 1 2 (List.replicate 15 0) = Except.error RofError.truncatedData :=
  ⟨by decide, by decide,
   (c5_sample_length_check 1 2 (List.replicate 15 0) (by decide)).1 (by decide)⟩

end RigolReader

namespace RigolReader

/-- C6: the unit converter preserves the grid's shape and element order and
multiplies every integer cell by the constant 0.0001: the output row count
and every row length equal the input's, and the cell at any position is
exactly the raw integer times `VOLTS_AMPERES_COEFF`. -/
theorem c6_unit_converter (g : List (List Int)) :
    (unitConvert g).length = g.length ∧
    ∀ i : Nat, i < g.length →
      (((unitConvert g)[i]!).length = (g[i]!).length ∧
        ∀ j : Nat, j < (g[i]!).length →
          ((unitConvert g)[i]!)[j]! = ((g[i]!)[j]! : ℚ) * VOLTS_AMPERES_COEFF) := by
  refine ⟨by simp [unitConvert], ?_⟩
  intro i hi
  have h1 : (unitConvert g)[i]! = (g[i]!).map (fun v : Int => (v : ℚ) * VOLTS_AMPERES_COEFF) :=
    getBangMap (fun row : List Int => row.map (fun v : Int => (v : ℚ) * VOLTS_AMPERES_COEFF))
      g i hi
  refine ⟨by simp [h1], ?_⟩
  intro j hj
  rw [h1, getBangMap (fun v : Int => (v : ℚ) * VOLTS_AMPERES_COEFF) (g[i]!) j hj]

/-- C6 witness: the conversion theorem applied to the one-cell grid
`[[123]]`. -/
theorem c6_unit_converter_witness :
    (0 : Nat) < ([[123]] : List (List Int)).length ∧
    (0 : Nat) < (([[123]] : List (List Int))[0]!).length ∧
    ((unitConvert [[123]])[0]!)[0]! = ((123 : Int) : ℚ) * VOLTS_AMPERES_COEFF :=
  ⟨by decide, by decide,
   ((c6_unit_converter [[123]]).2 0 (by decide)).2 0 (by decide)⟩

/-- C7: the time-axis synthesizer produces exactly P values, the value at
row index i being i × period (in the same numeric representation, `ℚ`, as
the converted grid); in particular for P = 3 and period = 5 the column is
[0, 5, 10]. -/
theorem c7_time_axis (P : Nat) (period : Int) :
    (timeAxis P period).length = P ∧
    (∀ i : Nat, i < P → (timeAxis P period)[i]! = (i : ℚ) * (period : ℚ)) ∧
    timeAxis 3 5 = [0, 5, 10] := by
  refine ⟨by simp [timeAxis], ?_, ?_⟩
  · intro i hi
    have hr : i < (List.range P).length := by simpa using hi
    rw [timeAxis, getBangMap (fun k : Nat => (k : ℚ) * (period : ℚ)) (List.range P) i hr]
    rw [getElem!_pos (List.range P) i hr, List.getElem_range]
  · norm_num [timeAxis, List.range_succ]

/-- C7 witness: the time-axis theorem applied at P = 3, period = 5,
row index 1. -/
theorem c7_time_axis_witness :
    (1 : Nat) < 3 ∧ (timeAxis 3 5)[1]! = ((1 : Nat) : ℚ) * ((5 : Int) : ℚ) :=
  ⟨by decide, (c7_time_axis 3 5).2.1 1 (by decide)⟩

/-- C8: a buffer holding the full fixed header, with the known model byte
and a point-count field decoding to 0, decodes without error and the
returned table has zero rows (so the time column is empty); the header
record is still produced (the decode returns `ok`). -/
theorem c8_zero_points (buf : List Nat) (h : 28 ≤ buf.length)
    (hm : (buf.drop 4).take 1 = [10])
    (hp : toSigned 4 (leNat ((buf.drop 20).take 4)) = 0) :
    (read_rof buf).map Prod.fst = Except.ok [] := by
  have hh := read_header_of_length buf h hm
  simp [read_rof, hh, ch_num, hp, ndarrayDecode, toRows, unitConvert, timeAxis,
        fread, Except.map]

/-- C8 witness: the zero-points theorem applied to the 28-byte buffer
`rofBuf0`. -/
theorem c8_zero_points_witness :
    28 ≤ rofBuf0.length ∧ (rofBuf0.drop 4).take 1 = [10] ∧
    toSigned 4 (leNat ((rofBuf0.drop 20).take 4)) = 0 ∧
    (read_rof rofBuf0).map Prod.fst = Except.ok [] :=
  ⟨by decide, by decide, by decide,
   c8_zero_points rofBuf0 (by decide) (by decide) (by decide)⟩

/-- C9 (counterexample): on the concrete scenario buffer the emitted rows
are not the claimed ones: the time values are printed by the same float
stringification as the channel cells, so the first field of each row is
`0.0` and `100.0`, not `0` and `100`. -/
theorem c9_counterexample :
    mainOutput rofBuf ≠ Except.ok ["0;1.0;2.0;3.0;4.0", "100;5.0;6.0;7.0;8.0"] := by
  with_unfolding_all decide

/-- C9 (amended): on the concrete scenario buffer (file type "ROF", model
byte 10, period 100, point count 2, samples 10000‥80000) the emitted text
rows are exactly `0.0;1.0;2.0;3.0;4.0` and `100.0;5.0;6.0;7.0;8.0`, in
that order, joined by `;`. -/
theorem c9_output_rows :
    mainOutput rofBuf = Except.ok ["0.0;1.0;2.0;3.0;4.0", "100.0;5.0;6.0;7.0;8.0"] := by
  with_unfolding_all decide

/-- C10 (counterexample): on `rofBufNeg` (full header, point count -1) the
decode fails at the sample-block read — `BufferedReader.read` rejects the
negative length with `ValueError` — so grid construction is never reached
and the failure is not numpy's negative-row-dimension rejection, contrary
to the mechanism the claim states. -/
theorem c10_counterexample :
    read_rof rofBufNeg = Except.error RofError.negativeReadLength ∧
    RofError.negativeReadLength ≠ RofError.negativeDimensions :=
  ⟨by with_unfolding_all decide, by decide⟩

/-- C10 (amended): a buffer holding the full fixed header, with the known
model byte and a negative decoded point count, makes the decode fail and
return no table: the derived sample-block byte count is negative, and the
buffered read of the sample block rejects that negative length
(`ValueError`) before the grid is ever constructed; a table is never
silently returned for a negative point count. -/
theorem c10_negative_points (buf : List Nat) (h : 28 ≤ buf.length)
    (hm : (buf.drop 4).take 1 = [10])
    (hp : toSigned 4 (leNat ((buf.drop 20).take 4)) < 0) :
    read_rof buf = Except.error RofError.negativeReadLength ∧
    toSigned 4 (leNat ((buf.drop 20).take 4)) * 2 * 2 * (DATA_BYTES : Int) < 0 := by
  have hd : (DATA_BYTES : Int) = 4 := by norm_num [DATA_BYTES]
  constructor
  · have hh := read_header_of_length buf h hm
    have hlt : toSigned 4 (leNat ((buf.drop 20).take 4)) * 2 * 2 * 4 < -1 := by omega
    simp [read_rof, hh, ch_num, fread, DATA_BYTES, hlt]
  · rw [hd]
    omega

/-- C10 witness: the negative-points theorem applied to `rofBufNeg`, whose
point-count field decodes to -1. -/
theorem c10_negative_points_witness :
    28 ≤ rofBufNeg.length ∧ (rofBufNeg.drop 4).take 1 = [10] ∧
    toSigned 4 (leNat ((rofBufNeg.drop 20).take 4)) < 0 ∧
    read_rof rofBufNeg = Except.error RofError.negativeReadLength :=
  ⟨by decide, by decide, by decide,
   (c10_negative_points rofBufNeg (by decide) (by decide) (by decide)).1⟩

end RigolReader
